import Mathlib

/-!
Verification of the Notes CRUD service (`src/app.py`, Flask + SQLAlchemy).

The service manages a single `note` table.  We shallowly embed the
database state as a list of rows plus the auto-increment counter for the
primary key, and each HTTP handler as a pure function from the state and
the request data to a response paired with the successor state.

Modelling conventions:
* A row (`Note`) has the four columns of the model class: `note_id`
  (integer primary key), `title` and `text` (nullable strings), `data`
  (creation timestamp, modelled as a natural number supplied to the
  handler as the `now` argument, standing for `func.now()`).
* A JSON request body is an association list of string fields
  (`Body`); the whole body may be absent (`Option Body`), which covers
  both a non-JSON request and a null body.
* `Note.query.get` is primary-key lookup, embedded as `List.find?` on
  `note_id`.
* An exception that the handler does not catch is a distinguished
  `fault` response (surfacing as HTTP 500 in practice).
-/

namespace NotesApp

/-- A row of the `note` table (class `Note` in `app.py`):
`note_id` integer primary key, `title` nullable string column,
`text` nullable string column, `data` timestamp defaulting to the
insertion time. -/
structure Note where
  note_id : Nat
  title : Option String
  text : Option String
  data : Nat
deriving DecidableEq, Repr

/-- The database state: the rows of the `note` table together with the
auto-increment counter that generates the next primary key. -/
structure DB where
  notes : List Note
  nextId : Nat
deriving DecidableEq, Repr

/-- Well-formedness of a database state: primary keys are pairwise
distinct, and every stored key is below the auto-increment counter
(so the next generated key is fresh).  Both facts are maintained by a
relational engine with an integer autoincrement primary key. -/
def DB.WF (db : DB) : Prop :=
  db.notes.Pairwise (fun a b => a.note_id ≠ b.note_id) ∧
    ∀ n ∈ db.notes, n.note_id < db.nextId

instance (db : DB) : Decidable db.WF := by
  unfold DB.WF; infer_instance

/-- A JSON object body: an association list from field names to string
values. -/
abbrev Body := List (String × String)

/-- Field access on a JSON body: `b.get(k)` / `b[k]` in Python,
`none` when the key is absent. -/
def lookupField (b : Body) (k : String) : Option String :=
  (b.find? (fun p => p.1 == k)).map (fun p => p.2)

/-- Response of the create handler.  The source's success path falls off
the end of the function without an explicit response (`noResponse`);
the validation failure returns a JSON error object with a status. -/
inductive CreateResp where
  | errResp (status : Nat) (error : String)
  | noResponse
deriving DecidableEq, Repr

/-- Response of the get-by-id handler: either the serialized row with a
status code, or an unhandled fault (attribute access on a missing
lookup result), which surfaces as HTTP 500. -/
inductive GetResult where
  | ok (n : Note) (status : Nat)
  | fault
deriving DecidableEq, Repr

/-- Response of the replace (PUT) handler: the serialized updated row
with a status code, or the catch-all error object with a status. -/
inductive PutResp where
  | ok (n : Note) (status : Nat)
  | errResp (status : Nat) (message : String)
deriving DecidableEq, Repr

/-- Response of the delete handler: a plain-text confirmation with a
status code, or the catch-all error object with a status. -/
inductive DelResp where
  | ok (msg : String) (status : Nat)
  | errResp (status : Nat) (message : String)
deriving DecidableEq, Repr

/-- `GET /notes/` (`index` in `app.py`): serialize every row as the
object with the four fields `note_id`, `title`, `text`, `data` —
exactly the fields of `Note` — and return the array with status 200. -/
def index (db : DB) : List Note × Nat :=
  (db.notes, 200)

/-- `GET /notes/<note_id>` (`note_by_note_id` in `app.py`):
`Note.query.get(note_id)` then unconditional attribute access on the
result.  When the lookup finds a row it is serialized with status 200;
when it finds nothing, `note.note_id` dereferences `None` and raises an
unhandled `AttributeError` (`fault`). -/
def note_by_note_id (db : DB) (note_id : Nat) : GetResult :=
  match db.notes.find? (fun n => n.note_id == note_id) with
  | some note => .ok note 200
  | none => .fault

/-- `POST /notes` (`register` in `app.py`): reject with
400 `invalid note ID request` when the body is absent, empty, or lacks
the `text` or `title` field; otherwise insert a row built only from the
body's `title` and `text`, with a server-generated `note_id` and the
current timestamp, and fall through with no explicit response. -/
def register (db : DB) (body : Option Body) (now : Nat) : CreateResp × DB :=
  match body with
  | none => (.errResp 400 "invalid note ID request", db)
  | some b =>
    if b.isEmpty || (lookupField b "text").isNone
        || (lookupField b "title").isNone then
      (.errResp 400 "invalid note ID request", db)
    else
      let note : Note :=
        { note_id := db.nextId
          title := lookupField b "title"
          text := lookupField b "text"
          data := now }
      (.noResponse, { notes := db.notes ++ [note], nextId := db.nextId + 1 })

/-- `PUT /notes/<note_id>` (`put` in `app.py`): inside a catch-all
`try`, look the row up by primary key, overwrite its `text` and `title`
with `req_json.get(...)` (so a field omitted from the body becomes
null), commit, and answer with the serialized updated row paired with
status 204.  Any exception — the lookup returning `None` (attribute
assignment on `None` raises) or the request carrying no JSON body
(`.get` on `None` raises) — is caught and answered with
404 `message: error`, leaving the table unchanged. -/
def put (db : DB) (note_id : Nat) (body : Option Body) : PutResp × DB :=
  match db.notes.find? (fun n => n.note_id == note_id) with
  | none => (.errResp 404 "error", db)
  | some note =>
    match body with
    | none => (.errResp 404 "error", db)
    | some b =>
      let note' : Note :=
        { note with
          text := lookupField b "text"
          title := lookupField b "title" }
      (.ok note' 204,
        { db with
          notes := db.notes.map (fun n => if n.note_id == note_id then note' else n) })

/-- `DELETE /notes/<note_id>` (`delete` in `app.py`): inside a catch-all
`try`, look the row up by primary key, delete it, commit, and answer
with a plain-text confirmation naming the id, status 200.  Any
exception — here `db.session.delete(None)` raising when the lookup finds
nothing — is caught and answered with 404 `message: error`. -/
def delete (db : DB) (note_id : Nat) : DelResp × DB :=
  match db.notes.find? (fun n => n.note_id == note_id) with
  | none => (.errResp 404 "error", db)
  | some _ =>
    (.ok ("You have deleted note № " ++ toString note_id) 200,
      { db with notes := db.notes.eraseP (fun n => n.note_id == note_id) })

/-! ### Helper lemmas -/

/-- `find?` skips a prefix in which no element satisfies the predicate. -/
lemma find?_append_of_forall_neg {α : Type} (p : α → Bool) (l₁ l₂ : List α)
    (h : ∀ a ∈ l₁, p a = false) : (l₁ ++ l₂).find? p = l₂.find? p := by
  induction l₁ with
  | nil => rfl
  | cons a l ih =>
    rw [List.cons_append, List.find?_cons_of_neg _ (by simp [h a (List.mem_cons_self a l)]),
      ih (fun b hb => h b (List.mem_cons_of_mem a hb))]

/-- A field lookup succeeding forces the body to be non-empty. -/
lemma lookupField_isEmpty_false {b : Body} {k : String} {v : String}
    (h : lookupField b k = some v) : b.isEmpty = false := by
  cases b with
  | nil => simp [lookupField] at h
  | cons _ _ => rfl

/-- With pairwise-distinct primary keys, two stored rows carrying the same
key are the same row. -/
lemma eq_of_mem_of_note_id_eq {l : List Note}
    (hp : l.Pairwise (fun a b => a.note_id ≠ b.note_id))
    {m n : Note} (hm : m ∈ l) (hn : n ∈ l) (h : m.note_id = n.note_id) :
    m = n := by
  induction l with
  | nil => simp at hm
  | cons a l ih =>
    rw [List.pairwise_cons] at hp
    rcases List.mem_cons.mp hm with rfl | hm₁ <;>
      rcases List.mem_cons.mp hn with rfl | hn₁
    · rfl
    · exact absurd h (hp.1 n hn₁)
    · exact absurd h.symm (hp.1 m hm₁)
    · exact ih hp.2 hm₁ hn₁

/-- With pairwise-distinct primary keys, every row surviving
`eraseP (key match)` is an original row whose key differs from the
erased key. -/
lemma mem_eraseP_key {l : List Note} (note_id : Nat)
    (hp : l.Pairwise (fun a b => a.note_id ≠ b.note_id))
    {m : Note} (hm : m ∈ l.eraseP (fun n => n.note_id == note_id)) :
    m ∈ l ∧ m.note_id ≠ note_id := by
  induction l with
  | nil => simp [List.eraseP] at hm
  | cons a l ih =>
    rw [List.pairwise_cons] at hp
    rw [List.eraseP_cons] at hm
    by_cases ha : a.note_id = note_id
    · rw [show (a.note_id == note_id) = true by simp [ha], cond_true] at hm
      refine ⟨List.mem_cons_of_mem a hm, ?_⟩
      intro hmid
      exact hp.1 m hm (by rw [ha, hmid])
    · rw [show (a.note_id == note_id) = false by simp [ha], cond_false] at hm
      rcases List.mem_cons.mp hm with rfl | hm₁
      · exact ⟨List.mem_cons_self _ _, ha⟩
      · obtain ⟨h₁, h₂⟩ := ih hp.2 hm₁
        exact ⟨List.mem_cons_of_mem a h₁, h₂⟩

/-- Updating the (unique) row matching a key and then looking that key up
finds the updated row. -/
lemma find?_map_update {l : List Note} (note_id : Nat) {note : Note}
    (note' : Note)
    (hfind : l.find? (fun n => n.note_id == note_id) = some note)
    (hid : note'.note_id = note_id) :
    (l.map (fun n => if n.note_id == note_id then note' else n)).find?
        (fun n => n.note_id == note_id) = some note' := by
  induction l with
  | nil => simp at hfind
  | cons a l ih =>
    by_cases ha : a.note_id = note_id
    · rw [List.map_cons, if_pos (by simp [ha]),
        List.find?_cons_of_pos _ (by simp [hid])]
    · rw [List.find?_cons_of_neg _ (by simp [ha])] at hfind
      rw [List.map_cons, if_neg (by simp [ha]),
        List.find?_cons_of_neg _ (by simp [ha])]
      exact ih hfind

/-! ### Claim theorems -/

/-- C1: Create-then-get round trip: on a well-formed database, creating a
note from a body carrying the string fields `title` and `text` and then
fetching by the id assigned to the new record yields a row whose `title`
and `text` equal the submitted values, together with the server-assigned
`note_id` and the insertion timestamp. -/
theorem create_then_get (db : DB) (b : Body) (t x : String) (now : Nat)
    (hwf : db.WF)
    (ht : lookupField b "title" = some t)
    (hx : lookupField b "text" = some x) :
    note_by_note_id (register db (some b) now).2 db.nextId =
      .ok { note_id := db.nextId, title := some t, text := some x,
            data := now } 200 := by
  have hb := lookupField_isEmpty_false ht
  have hreg : (register db (some b) now).2 =
      ⟨db.notes ++ [⟨db.nextId, some t, some x, now⟩], db.nextId + 1⟩ := by
    simp [register, hb, ht, hx]
  rw [hreg]
  unfold note_by_note_id
  rw [show (⟨db.notes ++ [⟨db.nextId, some t, some x, now⟩],
            db.nextId + 1⟩ : DB).notes =
      db.notes ++ [⟨db.nextId, some t, some x, now⟩] from rfl,
    find?_append_of_forall_neg _ _ _
      (fun n hn => by simpa using Nat.ne_of_lt (hwf.2 n hn)),
    List.find?_cons_of_pos _ (by simp)]

/-- C1 witness: a concrete create-then-get round trip on the empty
well-formed database. -/
theorem create_then_get_instance :
    DB.WF ⟨[], 1⟩ ∧
      note_by_note_id
        (register ⟨[], 1⟩ (some [("title", "T"), ("text", "X")]) 7).2 1 =
        .ok { note_id := 1, title := some "T", text := some "X",
              data := 7 } 200 :=
  ⟨by decide, create_then_get ⟨[], 1⟩ _ "T" "X" 7 (by decide) rfl rfl⟩

/-- C2: Create validation: when the JSON body is absent, or lacks the
`text` field or the `title` field, create answers 400 with the
`invalid note ID request` error object, inserts no record, and the
subsequent list count is unchanged. -/
theorem create_invalid_rejected (db : DB) (ob : Option Body) (now : Nat)
    (h : ob = none ∨ ∃ b, ob = some b ∧
      (lookupField b "text" = none ∨ lookupField b "title" = none)) :
    register db ob now = (.errResp 400 "invalid note ID request", db) ∧
      (index (register db ob now).2).1.length = (index db).1.length := by
  have hmain : register db ob now =
      (.errResp 400 "invalid note ID request", db) := by
    obtain rfl | ⟨b, rfl, hb⟩ := h
    · rfl
    · rcases hb with hb | hb <;> simp [register, hb]
  exact ⟨hmain, by rw [hmain]⟩

/-- C2 witness: a create request whose body lacks the `text` field is
rejected and leaves a one-row database unchanged. -/
theorem create_invalid_rejected_instance :
    register ⟨[⟨1, some "a", some "b", 0⟩], 2⟩ (some [("title", "T")]) 9 =
        (.errResp 400 "invalid note ID request",
          ⟨[⟨1, some "a", some "b", 0⟩], 2⟩) ∧
      (index (register ⟨[⟨1, some "a", some "b", 0⟩], 2⟩
          (some [("title", "T")]) 9).2).1.length =
        (index ⟨[⟨1, some "a", some "b", 0⟩], 2⟩).1.length :=
  create_invalid_rejected ⟨[⟨1, some "a", some "b", 0⟩], 2⟩
    (some [("title", "T")]) 9 (Or.inr ⟨_, rfl, Or.inl rfl⟩)

/-- C3: Replace is a full overwrite: updating an existing row sets its
`title` and `text` to the body's lookups — a field omitted from the body
becomes null, not its prior value — the response carries the updated
row's fields paired with status 204, and a subsequent get by the same id
returns that updated row. -/
theorem put_full_overwrite (db : DB) (note_id : Nat) (note : Note) (b : Body)
    (hfind : db.notes.find? (fun n => n.note_id == note_id) = some note) :
    (put db note_id (some b)).1 =
      .ok ⟨note.note_id, lookupField b "title", lookupField b "text",
           note.data⟩ 204 ∧
    note_by_note_id (put db note_id (some b)).2 note_id =
      .ok ⟨note.note_id, lookupField b "title", lookupField b "text",
           note.data⟩ 200 := by
  have hid : note.note_id = note_id := by
    simpa using List.find?_some hfind
  constructor
  · simp [put, hfind]
  · have hupd := find?_map_update note_id
      (⟨note.note_id, lookupField b "title", lookupField b "text",
        note.data⟩ : Note) hfind hid
    have hstate : (put db note_id (some b)).2.notes =
        db.notes.map (fun n =>
          if n.note_id == note_id then
            (⟨note.note_id, lookupField b "title", lookupField b "text",
              note.data⟩ : Note)
          else n) := by
      unfold put
      rw [hfind]
    unfold note_by_note_id
    rw [hstate, hupd]

/-- C3 witness: replacing with a body that omits `title` nulls the title
and keeps the new text, at status 204. -/
theorem put_full_overwrite_instance :
    (put ⟨[⟨1, some "old", some "t", 3⟩], 2⟩ 1 (some [("text", "new")])).1 =
        .ok { note_id := 1, title := none, text := some "new", data := 3 } 204 ∧
      note_by_note_id
        (put ⟨[⟨1, some "old", some "t", 3⟩], 2⟩ 1 (some [("text", "new")])).2 1 =
        .ok { note_id := 1, title := none, text := some "new", data := 3 } 200 :=
  put_full_overwrite ⟨[⟨1, some "old", some "t", 3⟩], 2⟩ 1
    ⟨1, some "old", some "t", 3⟩ [("text", "new")] rfl

/-- C4: Get on a missing id: when no stored row matches, the handler
dereferences the empty lookup result and raises an unhandled fault
(surfacing as HTTP 500), producing no ordinary response — in particular
no 404 object. -/
theorem get_missing_faults (db : DB) (note_id : Nat)
    (h : db.notes.find? (fun n => n.note_id == note_id) = none) :
    note_by_note_id db note_id = .fault ∧
      ∀ n s, note_by_note_id db note_id ≠ .ok n s := by
  have hf : note_by_note_id db note_id = .fault := by
    simp [note_by_note_id, h]
  exact ⟨hf, fun n s hc => by rw [hf] at hc; exact GetResult.noConfusion hc⟩

/-- C4 witness: fetching id 99999 from a database without it faults. -/
theorem get_missing_faults_instance :
    note_by_note_id ⟨[⟨1, some "a", some "b", 0⟩], 2⟩ 99999 = .fault ∧
      ∀ n s, note_by_note_id ⟨[⟨1, some "a", some "b", 0⟩], 2⟩ 99999 ≠
        .ok n s :=
  get_missing_faults ⟨[⟨1, some "a", some "b", 0⟩], 2⟩ 99999 rfl

/-- C5: Delete semantics: deleting an id with a matching row removes that
row and answers 200 with a confirmation message naming the id; deleting
the same id again — and more generally any id with no matching row —
answers 404 with the `message: error` object and changes nothing, so
delete is idempotent in effect but not in response. -/
theorem delete_semantics (db : DB) (note_id : Nat) (note : Note)
    (hwf : db.WF)
    (hfind : db.notes.find? (fun n => n.note_id == note_id) = some note) :
    (delete db note_id).1 =
      .ok ("You have deleted note № " ++ toString note_id) 200 ∧
    (delete db note_id).2.notes.length + 1 = db.notes.length ∧
    note ∉ (delete db note_id).2.notes ∧
    delete (delete db note_id).2 note_id =
      (.errResp 404 "error", (delete db note_id).2) ∧
    ∀ (db₂ : DB) (id₂ : Nat),
      db₂.notes.find? (fun n => n.note_id == id₂) = none →
        delete db₂ id₂ = (.errResp 404 "error", db₂) := by
  have hid : note.note_id = note_id := by
    simpa using List.find?_some hfind
  have hstate : (delete db note_id).2.notes =
      db.notes.eraseP (fun n => n.note_id == note_id) := by
    unfold delete
    rw [hfind]
  have hgen : ∀ (db₂ : DB) (id₂ : Nat),
      db₂.notes.find? (fun n => n.note_id == id₂) = none →
        delete db₂ id₂ = (.errResp 404 "error", db₂) := by
    intro db₂ id₂ h₂
    unfold delete
    rw [h₂]
  have hnone : (delete db note_id).2.notes.find?
      (fun n => n.note_id == note_id) = none := by
    rw [hstate]
    exact List.find?_eq_none.mpr (fun x hx => by
      simpa using (mem_eraseP_key note_id hwf.1 hx).2)
  refine ⟨?_, ?_, ?_, hgen _ _ hnone, hgen⟩
  · unfold delete
    rw [hfind]
  · rw [hstate]
    exact List.length_eraseP_add_one (List.mem_of_find?_eq_some hfind)
      (by simp [hid])
  · intro hm
    rw [hstate] at hm
    exact (mem_eraseP_key note_id hwf.1 hm).2 hid

/-- C5 witness: deleting id 1 from a one-row database succeeds with the
confirmation, and a second delete of the same id answers 404 with the
error object and changes nothing. -/
theorem delete_semantics_instance :
    (delete ⟨[⟨1, some "a", some "b", 0⟩], 2⟩ 1).1 =
        .ok ("You have deleted note № " ++ toString 1) 200 ∧
      delete (delete ⟨[⟨1, some "a", some "b", 0⟩], 2⟩ 1).2 1 =
        (.errResp 404 "error", (delete ⟨[⟨1, some "a", some "b", 0⟩], 2⟩ 1).2) :=
  ⟨(delete_semantics ⟨[⟨1, some "a", some "b", 0⟩], 2⟩ 1
      ⟨1, some "a", some "b", 0⟩ (by decide) rfl).1,
    (delete_semantics ⟨[⟨1, some "a", some "b", 0⟩], 2⟩ 1
      ⟨1, some "a", some "b", 0⟩ (by decide) rfl).2.2.2.1⟩

/-- C6: List totality and completeness: listing always answers 200 with
exactly one serialized object per stored row (the empty array on an empty
table); a valid create grows the listing by one, and deleting a stored id
shrinks it by exactly one, every remaining listed row being one of the
still-stored rows with an id other than the deleted one. -/
theorem index_complete (db : DB) (note_id : Nat) (note : Note)
    (hwf : db.WF)
    (hfind : db.notes.find? (fun n => n.note_id == note_id) = some note) :
    ((index db).2 = 200 ∧ (index db).1 = db.notes) ∧
    (∀ k : Nat, (index ⟨[], k⟩).1 = []) ∧
    (∀ (b : Body) (now : Nat) (t x : String),
      lookupField b "title" = some t → lookupField b "text" = some x →
        (index (register db (some b) now).2).1.length =
          (index db).1.length + 1) ∧
    ((index (delete db note_id).2).1.length + 1 = (index db).1.length ∧
      ∀ m ∈ (index (delete db note_id).2).1,
        m ∈ (index db).1 ∧ m.note_id ≠ note_id) := by
  have hstate : (delete db note_id).2.notes =
      db.notes.eraseP (fun n => n.note_id == note_id) := by
    unfold delete
    rw [hfind]
  refine ⟨⟨rfl, rfl⟩, fun k => rfl, ?_, ?_, ?_⟩
  · intro b now t x ht hx
    have hb := lookupField_isEmpty_false ht
    simp [register, index, hb, ht, hx]
  · show (delete db note_id).2.notes.length + 1 = db.notes.length
    rw [hstate]
    have hid : note.note_id = note_id := by
      simpa using List.find?_some hfind
    exact List.length_eraseP_add_one (List.mem_of_find?_eq_some hfind)
      (by simp [hid])
  · intro m hm
    rw [show (index (delete db note_id).2).1 = (delete db note_id).2.notes
        from rfl, hstate] at hm
    exact mem_eraseP_key note_id hwf.1 hm

/-- C6 witness: a two-row database lists both rows with status 200, and
after deleting id 1 the listing has exactly one row. -/
theorem index_complete_instance :
    (index ⟨[⟨1, some "a", some "b", 0⟩, ⟨2, some "c", some "d", 1⟩], 3⟩).2 =
        200 ∧
      (index (delete ⟨[⟨1, some "a", some "b", 0⟩,
          ⟨2, some "c", some "d", 1⟩], 3⟩ 1).2).1.length + 1 =
        (index ⟨[⟨1, some "a", some "b", 0⟩,
          ⟨2, some "c", some "d", 1⟩], 3⟩).1.length :=
  ⟨(index_complete ⟨[⟨1, some "a", some "b", 0⟩, ⟨2, some "c", some "d", 1⟩], 3⟩
      1 ⟨1, some "a", some "b", 0⟩ (by decide) rfl).1.1,
    (index_complete ⟨[⟨1, some "a", some "b", 0⟩, ⟨2, some "c", some "d", 1⟩], 3⟩
      1 ⟨1, some "a", some "b", 0⟩ (by decide) rfl).2.2.2.1⟩

/-- C7: Replace frame condition: a successful replace rewrites the table
to the pointwise image in which only the targeted row changes — its
`note_id` and `data` (creation timestamp) are kept, only `title` and
`text` move — and every other stored row is exactly as before, the row
count included. -/
theorem put_frame (db : DB) (note_id : Nat) (note : Note) (b : Body)
    (hwf : db.WF)
    (hfind : db.notes.find? (fun n => n.note_id == note_id) = some note) :
    (put db note_id (some b)).2.notes =
      db.notes.map (fun n =>
        if n.note_id = note_id then
          ⟨n.note_id, lookupField b "title", lookupField b "text", n.data⟩
        else n) ∧
    (put db note_id (some b)).2.notes.length = db.notes.length := by
  have hid : note.note_id = note_id := by
    simpa using List.find?_some hfind
  have hmem := List.mem_of_find?_eq_some hfind
  have hstate : (put db note_id (some b)).2.notes =
      db.notes.map (fun n =>
        if n.note_id == note_id then
          (⟨note.note_id, lookupField b "title", lookupField b "text",
            note.data⟩ : Note)
        else n) := by
    unfold put
    rw [hfind]
  have hmap : db.notes.map (fun n =>
      if n.note_id == note_id then
        (⟨note.note_id, lookupField b "title", lookupField b "text",
          note.data⟩ : Note)
      else n) =
      db.notes.map (fun n =>
        if n.note_id = note_id then
          (⟨n.note_id, lookupField b "title", lookupField b "text",
            n.data⟩ : Note)
        else n) := by
    apply List.map_congr_left
    intro a ha
    by_cases hae : a.note_id = note_id
    · have haeq : a = note :=
        eq_of_mem_of_note_id_eq hwf.1 ha hmem (by rw [hae, hid])
      subst haeq
      simp [hae]
    · simp [hae]
  exact ⟨by rw [hstate, hmap], by rw [hstate, List.length_map]⟩

/-- C7 witness: replacing id 1 in a two-row database leaves row 2 and the
identifying fields of row 1 untouched. -/
theorem put_frame_instance :
    (put ⟨[⟨1, some "a", some "b", 0⟩, ⟨2, some "c", some "d", 1⟩], 3⟩ 1
        (some [("text", "z")])).2.notes =
      [⟨1, some "a", some "b", 0⟩,
        (⟨2, some "c", some "d", 1⟩ : Note)].map (fun n =>
          if n.note_id = 1 then
            ⟨n.note_id, lookupField [("text", "z")] "title",
              lookupField [("text", "z")] "text", n.data⟩
          else n) :=
  (put_frame ⟨[⟨1, some "a", some "b", 0⟩, ⟨2, some "c", some "d", 1⟩], 3⟩ 1
    ⟨1, some "a", some "b", 0⟩ [("text", "z")] (by decide) rfl).1

/-- C8: Create stores verbatim: a valid create appends exactly one row
whose `title` and `text` are the submitted strings unmodified — the
service layer performs no length validation, so over-long values pass
through to storage — with the server-generated id and the insertion
timestamp, and bumps the id counter. -/
theorem create_stores_verbatim (db : DB) (b : Body) (t x : String) (now : Nat)
    (ht : lookupField b "title" = some t)
    (hx : lookupField b "text" = some x) :
    register db (some b) now =
      (.noResponse,
        ⟨db.notes ++ [⟨db.nextId, some t, some x, now⟩], db.nextId + 1⟩) := by
  have hb := lookupField_isEmpty_false ht
  simp [register, hb, ht, hx]

set_option maxRecDepth 4000 in
/-- C8 witness: a 31-character title and a 260-character text are stored
exactly as submitted. -/
theorem create_stores_verbatim_instance :
    30 < ("t123456789t123456789t123456789t" : String).length ∧
      255 <
        ("x123456789x123456789x123456789x123456789x123456789x123456789x123456789x123456789x123456789x123456789x123456789x123456789x123456789x123456789x123456789x123456789x123456789x123456789x123456789x123456789x123456789x123456789x123456789x123456789x123456789x123456789" :
          String).length ∧
      register ⟨[], 1⟩
          (some [("title", "t123456789t123456789t123456789t"),
            ("text",
              "x123456789x123456789x123456789x123456789x123456789x123456789x123456789x123456789x123456789x123456789x123456789x123456789x123456789x123456789x123456789x123456789x123456789x123456789x123456789x123456789x123456789x123456789x123456789x123456789x123456789x123456789")]) 4 =
        (.noResponse,
          ⟨[⟨1, some "t123456789t123456789t123456789t",
            some "x123456789x123456789x123456789x123456789x123456789x123456789x123456789x123456789x123456789x123456789x123456789x123456789x123456789x123456789x123456789x123456789x123456789x123456789x123456789x123456789x123456789x123456789x123456789x123456789x123456789x123456789",
            4⟩], 2⟩) :=
  ⟨by decide, by decide,
    create_stores_verbatim ⟨[], 1⟩ _ _ _ 4 rfl rfl⟩

/-- C9: Create ignores unknown body fields: the outcome of create depends
only on the body's `title` and `text` lookups — two bodies agreeing on
those produce identical responses and states — and on the valid path the
new row's id is the server's counter, never a client-supplied value. -/
theorem create_ignores_unknown_fields (db : DB) (b₁ b₂ : Body) (now : Nat)
    (ht : lookupField b₁ "title" = lookupField b₂ "title")
    (hx : lookupField b₁ "text" = lookupField b₂ "text") :
    register db (some b₁) now = register db (some b₂) now ∧
      ∀ t x, lookupField b₁ "title" = some t →
        lookupField b₁ "text" = some x →
          (register db (some b₁) now).2.notes =
            db.notes ++ [⟨db.nextId, some t, some x, now⟩] := by
  constructor
  · rcases hcx : lookupField b₁ "text" with _ | x₀
    · have hx₂ : lookupField b₂ "text" = none := by rw [← hx, hcx]
      simp [register, hcx, hx₂]
    · rcases hct : lookupField b₁ "title" with _ | t₀
      · have ht₂ : lookupField b₂ "title" = none := by rw [← ht, hct]
        simp [register, hct, ht₂]
      · have hx₂ : lookupField b₂ "text" = some x₀ := by rw [← hx, hcx]
        have ht₂ : lookupField b₂ "title" = some t₀ := by rw [← ht, hct]
        have hb₁ := lookupField_isEmpty_false hct
        have hb₂ := lookupField_isEmpty_false ht₂
        simp [register, hcx, hct, hx₂, ht₂, hb₁, hb₂]
  · intro t x ht₁ hx₁
    have hb := lookupField_isEmpty_false ht₁
    simp [register, hb, ht₁, hx₁]

/-- C9 witness: a body smuggling a `note_id` field creates the same state
as the body without it, and the stored id is the server counter 5, not
the client-supplied 99. -/
theorem create_ignores_unknown_fields_instance :
    register ⟨[], 5⟩
        (some [("note_id", "99"), ("title", "T"), ("text", "X")]) 2 =
      register ⟨[], 5⟩ (some [("title", "T"), ("text", "X")]) 2 ∧
    (register ⟨[], 5⟩
        (some [("note_id", "99"), ("title", "T"), ("text", "X")]) 2).2.notes =
      [⟨5, some "T", some "X", 2⟩] :=
  ⟨(create_ignores_unknown_fields ⟨[], 5⟩
      [("note_id", "99"), ("title", "T"), ("text", "X")]
      [("title", "T"), ("text", "X")] 2 rfl rfl).1,
    (create_ignores_unknown_fields ⟨[], 5⟩
      [("note_id", "99"), ("title", "T"), ("text", "X")]
      [("title", "T"), ("text", "X")] 2 rfl rfl).2 "T" "X" rfl rfl⟩

/-- C10: Error atomicity of replace and delete: whenever the replace or
the delete handler answers 404 with the `message: error` object, the
database — its set of rows and all their fields — is exactly as it was
before the request. -/
theorem error_atomicity (db : DB) (note_id : Nat) (ob : Option Body) :
    ((put db note_id ob).1 = .errResp 404 "error" →
      (put db note_id ob).2 = db) ∧
    ((delete db note_id).1 = .errResp 404 "error" →
      (delete db note_id).2 = db) := by
  constructor
  · intro h
    unfold put at h ⊢
    cases hf : db.notes.find? (fun n => n.note_id == note_id) with
    | none => rfl
    | some note =>
      rw [hf] at h
      cases ob with
      | none => rfl
      | some b => exact PutResp.noConfusion h
  · intro h
    unfold delete at h ⊢
    cases hf : db.notes.find? (fun n => n.note_id == note_id) with
    | none => rfl
    | some note =>
      rw [hf] at h
      exact DelResp.noConfusion h

/-- C10 witness: on a database without id 1, both replace and delete of
id 1 answer the 404 error object and leave the database unchanged. -/
theorem error_atomicity_instance :
    (put ⟨[], 1⟩ 1 none).1 = PutResp.errResp 404 "error" ∧
      (put ⟨[], 1⟩ 1 none).2 = ⟨[], 1⟩ ∧
      (delete ⟨[], 1⟩ 1).1 = DelResp.errResp 404 "error" ∧
      (delete ⟨[], 1⟩ 1).2 = ⟨[], 1⟩ :=
  ⟨rfl, (error_atomicity ⟨[], 1⟩ 1 none).1 rfl, rfl,
    (error_atomicity ⟨[], 1⟩ 1 none).2 rfl⟩

end NotesApp
